import Mathlib

/-! Shallow embedding of var.py (functional_wrapper): the lazy expression
graph, variable discovery, constraint classification and the Problem
adapter.  Numbers are modelled as rationals; Python None - and the
TypeError arithmetic on None raises - is modelled by Option. -/

namespace FunctionalWrapper

/-- Variable identities: Variable._id, which coincides with the position in
the process-wide registry Variable._vars (ids are assigned from the
monotone counter Variable._n at append time). -/
abbrev VarId : Type := ℕ

/-- The mutable _value slot of every Variable, indexed by id; none models an
unset value (Python None). -/
abbrev Store : Type := VarId → Option ℚ

def Store.empty : Store := fun _ => none

/-- Variable.value setter (var.py lines 324-326): self._value = value. -/
def Store.update (σ : Store) (v : VarId) (q : ℚ) : Store :=
  fun w => if w = v then some q else σ w

/-- Display symbol of an Expression node (var.py lines 169-181): either a
literal token or a formatting function of the two operand names. -/
inductive Symbol : Type where
  | str (s : String) : Symbol
  | fmt (f : String → String → String) : Symbol

/-- A combining function (the method slot of an Expression): a Python lambda
over possibly absent floats; none propagates both an absent operand and the
TypeError such a lambda raises on None. -/
abbrev Method : Type := Option ℚ → Option ℚ → Option ℚ

/-- Operands of the expression graph: an absent operand (None), a plain
number, a Variable leaf (by id), an Expression node with left and right
operands, a combining method and a display symbol (var.py lines 167-173),
or an Array wrapping a flattened element list (var.py lines 245-248). -/
inductive Operand : Type where
  | null : Operand
  | num (r : ℚ) : Operand
  | var (id : VarId) : Operand
  | node (left right : Operand) (method : Method) (symbol : Symbol) : Operand
  | arr (elements : List Operand) : Operand

/-- Lift a total binary rational function to a method: a lambda such as
x + y succeeds on two numbers and raises (none) if either side is None. -/
def liftBin (f : ℚ → ℚ → ℚ) : Method :=
  fun x y =>
    match x, y with
    | some a, some b => some (f a b)
    | _, _ => none

/-- value_of (var.py lines 50-57) combined with the value properties it
dispatches to: an Operation yields variable.value recursively, None stays
None, and anything else is coerced to a float.  Expression.value (lines
198-202) is method(value_of(left), value_of(right)), recomputed on every
access.  Array.value is an element-wise numpy array and lies outside this
scalar model; no theorem below evaluates an Array, so that case maps to
none. -/
def value_of (σ : Store) : Operand → Option ℚ
  | .null => none
  | .num r => some r
  | .var v => σ v
  | .node l r m _ => m (value_of σ l) (value_of σ r)
  | .arr _ => none

/-- Operation.__add__ (var.py lines 65-66). -/
def Operation.add (self right : Operand) : Operand :=
  .node self right (liftBin (· + ·)) (.str "+")

/-- Operation.__sub__ (var.py lines 70-71). -/
def Operation.sub (self right : Operand) : Operand :=
  .node self right (liftBin (· - ·)) (.str "-")

/-- Operation.__mul__ (var.py lines 76-77): the source constructs
Expression(right, self, ...), with the operands swapped. -/
def Operation.mul (self right : Operand) : Operand :=
  .node right self (liftBin (· * ·)) (.str "*")

/-- Operation.__truediv__ (var.py lines 84-85); division by zero raises in
Python, modelled none. -/
def Operation.truediv (self right : Operand) : Operand :=
  .node self right
    (fun x y =>
      match x, y with
      | some a, some b => if b = 0 then none else some (a / b)
      | _, _ => none)
    (.str "/")

/-- Operation.__pos__ (var.py lines 105-106): returns self itself. -/
def Operation.pos (self : Operand) : Operand := self

/-- Operation.__neg__ (var.py lines 108-109): a unary node with an absent
left operand whose method uses only the right value. -/
def Operation.neg (self : Operand) : Operand :=
  .node .null self (fun _ y => y.map (fun b => -b)) (.fmt (fun _ y => "-" ++ y))

/-- Constraint (var.py lines 230-242): an Expression specialised to a
relation; method stores the comparison lambda (never invoked on the
Problem path) and symbol the relation token. -/
structure Constraint : Type where
  left : Operand
  right : Operand
  method : ℚ → ℚ → Prop
  symbol : String

/-- Constraint.is_equality (var.py lines 232-234). -/
def Constraint.is_equality (c : Constraint) : Bool := c.symbol == "=="

/-- Constraint.is_greater_than (var.py lines 236-238). -/
def Constraint.is_greater_than (c : Constraint) : Bool := c.symbol == ">="

/-- Constraint.is_less_than (var.py lines 240-242). -/
def Constraint.is_less_than (c : Constraint) : Bool := c.symbol == "<="

/-- Operation.__eq__ (var.py lines 118-119): yields a Constraint node, not a
boolean. -/
def Operation.eq (self right : Operand) : Constraint :=
  ⟨self, right, fun x y => x = y, "=="⟩

/-- Operation.__le__ (var.py lines 121-122). -/
def Operation.le (self right : Operand) : Constraint :=
  ⟨self, right, fun x y => x ≤ y, "<="⟩

/-- Operation.__lt__ (var.py lines 124-125): delegates to __le__. -/
def Operation.lt (self right : Operand) : Constraint :=
  Operation.le self right

/-- Operation.__ge__ (var.py lines 127-128). -/
def Operation.ge (self right : Operand) : Constraint :=
  ⟨self, right, fun x y => x ≥ y, ">="⟩

/-- Operation.__gt__ (var.py lines 130-131): delegates to __ge__. -/
def Operation.gt (self right : Operand) : Constraint :=
  Operation.ge self right

/-- Outcome of a Python call: a normal return, or a NameError naming the
unresolved identifier. -/
inductive PyResult (α : Type) : Type where
  | ok (val : α) : PyResult α
  | nameError (missing : String) : PyResult α

/-- Expression.variables (var.py lines 204-227).  The body defines the
helper update, binds list_expr := [self] and list_var := set() (lines
216-218), and then the while condition on line 220 reads the name l_expr,
which is bound nowhere in the function: every call raises NameError
(name 'l_expr' is not defined) before a single traversal step runs. -/
def Expression.variables (e : Operand) : PyResult (List VarId) :=
  let _list_expr : List Operand := [e]
  let _list_var : List VarId := []
  PyResult.nameError "l_expr"

/-- Array.variables (var.py lines 277-284): walk the flattened elements in
order; append a Variable, extend with the recursive variables() of an
Expression element - dispatching to Array.variables for a nested Array and
to the raising Expression.variables for any other Expression; duplicates
are not removed here. -/
def Array.variables : List Operand → PyResult (List VarId)
  | [] => .ok []
  | Operand.var v :: rest =>
      match Array.variables rest with
      | .ok l => .ok (v :: l)
      | .nameError n => .nameError n
  | Operand.arr es :: rest =>
      match Array.variables es with
      | .nameError n => .nameError n
      | .ok l1 =>
          match Array.variables rest with
          | .nameError n => .nameError n
          | .ok l2 => .ok (l1 ++ l2)
  | Operand.node l r m s :: rest =>
      match Expression.variables (Operand.node l r m s) with
      | .nameError n => .nameError n
      | .ok l1 =>
          match Array.variables rest with
          | .nameError n => .nameError n
          | .ok l2 => .ok (l1 ++ l2)
  | _ :: rest => Array.variables rest

/-- The helper update defined inside Expression.variables (var.py lines
207-214): an Array operand unions in the ids of its variables, any other
Expression operand is appended to the worklist, a Variable operand's id is
added to the id set; anything else (numbers, None, raw numpy arrays) is
ignored.  The Python id set is modelled as a duplicate-free list. -/
def Expression.update (value : Operand) (variables' : List VarId)
    (expressions : List Operand) : PyResult (List VarId × List Operand) :=
  match value with
  | Operand.arr es =>
      match Array.variables es with
      | .nameError n => .nameError n
      | .ok ids => .ok (ids.foldl (fun l i => l.insert i) variables', expressions)
  | Operand.node left right m s =>
      .ok (variables', expressions ++ [Operand.node left right m s])
  | Operand.var v => .ok (variables'.insert v, expressions)
  | _ => .ok (variables', expressions)

/-- The worklist loop of Expression.variables as evidently intended, i.e.
with the misspelt l_expr of lines 220-222 read as list_expr (the one-token
repair); fuel bounds the while iterations.  none covers exhausted fuel, a
nested NameError from an Array element, and the unreachable case of a
non-Expression worklist entry. -/
def Expression.variablesLoopFixed : ℕ → List Operand → List VarId → Option (List VarId)
  | 0, _, _ => none
  | fuel + 1, list_expr, list_var =>
      match list_expr.getLast? with
      | none => some list_var
      | some expression =>
          match expression with
          | Operand.node l r _ _ =>
              match Expression.update l list_var list_expr.dropLast with
              | .nameError _ => none
              | .ok (lv1, le1) =>
                  match Expression.update r lv1 le1 with
                  | .nameError _ => none
                  | .ok (lv2, le2) => Expression.variablesLoopFixed fuel le2 lv2
          | _ => none

/-- Expression.variables after the one-token repair, run with fuel; the
returned ids stand for the Variables recovered through the registry
Variable._vars on line 226. -/
def Expression.variablesFixed (fuel : ℕ) (e : Operand) : Option (List VarId) :=
  Expression.variablesLoopFixed fuel [e] []

/-- Type of the closures handed to the optimizer: a candidate vector and the
current global Variable state give the evaluated scalar. -/
abbrev ObjFun : Type := List ℚ → Store → Option ℚ

/-- One scipy constraint dict as built on lines 374, 379 and 384: the keys
type ('eq' or 'ineq') and fun. -/
structure ConstraintFun : Type where
  type : String
  fun' : ObjFun

/-- Problem state after __init__ (var.py lines 331-340): the source stores
the objective, the normalised constraint list and the discovered variable
order (self._variables, intended to be a duplicate-free id list); the tol
parameter is stored nowhere. -/
structure Problem : Type where
  obj : Operand
  constraints : List Constraint
  variables' : List VarId

/-- Problem._assign_to_variables (var.py lines 347-349): var.value = x[i]
positionally; x[i] raises IndexError (none) when x is shorter than the
variable list, and surplus entries of x are ignored. -/
def Problem.assign_to_variables : List VarId → List ℚ → Store → Option Store
  | [], _, σ => some σ
  | _ :: _, [], _ => none
  | v :: vs, q :: qs, σ => Problem.assign_to_variables vs qs (Store.update σ v q)

/-- Problem._initial_guess (var.py lines 351-353): 1.0 for an unset
Variable, else its current value. -/
def Problem.initial_guess (p : Problem) (σ : Store) : List ℚ :=
  p.variables'.map (fun v => match σ v with | none => 1 | some q => q)

/-- Problem._build_objective_function (var.py lines 361-365): assign the
candidate vector to the Variables, then re-evaluate the objective. -/
def Problem.obj_fun (p : Problem) : ObjFun :=
  fun x σ =>
    match Problem.assign_to_variables p.variables' x σ with
    | none => none
    | some σ1 => value_of σ1 p.obj

/-- Problem._build_constraints (var.py lines 367-385): one closure per
recognised relation; '==' appends type 'eq' over (left - right).value,
'>=' appends type 'ineq' over (left - right).value, '<=' appends type
'ineq' over (right - left).value; a constraint matching none of the three
branches appends nothing and the loop continues. -/
def Problem.build_constraints (vars : List VarId) : List Constraint → List ConstraintFun
  | [] => []
  | c :: cs =>
      if c.is_equality then
        ⟨"eq", fun x σ =>
          match Problem.assign_to_variables vars x σ with
          | none => none
          | some σ1 => value_of σ1 (Operation.sub c.left c.right)⟩ ::
          Problem.build_constraints vars cs
      else if c.is_greater_than then
        ⟨"ineq", fun x σ =>
          match Problem.assign_to_variables vars x σ with
          | none => none
          | some σ1 => value_of σ1 (Operation.sub c.left c.right)⟩ ::
          Problem.build_constraints vars cs
      else if c.is_less_than then
        ⟨"ineq", fun x σ =>
          match Problem.assign_to_variables vars x σ with
          | none => none
          | some σ1 => value_of σ1 (Operation.sub c.right c.left)⟩ ::
          Problem.build_constraints vars cs
      else
        Problem.build_constraints vars cs

/-- The constraint closures of a Problem (self._constraint_funs). -/
def Problem.constraint_funs (p : Problem) : List ConstraintFun :=
  Problem.build_constraints p.variables' p.constraints

/-- The scipy result object as far as the core reads it: the optimised
vector opt.x and the convergence flag. -/
structure OptResult : Type where
  x : List ℚ
  success : Bool

/-- The argument list the source passes to scipy.optimize.minimize on lines
356-357: the objective closure, the initial guess and the constraint list -
and no tol keyword, so scipy's tolerance argument is left at its own
default (None). -/
structure OptimizerCall : Type where
  fun' : ObjFun
  x0 : List ℚ
  constraints : List ConstraintFun
  tol : Option ℚ

/-- The concrete invocation minimize() makes of the external optimizer. -/
def Problem.minimizeCall (p : Problem) (σ : Store) : OptimizerCall :=
  ⟨p.obj_fun, p.initial_guess σ, p.constraint_funs, none⟩

/-- Problem.minimize (var.py lines 355-359) with the external optimizer
abstracted as a function of exactly the arguments passed: the returned
vector is written back onto the Variables unconditionally and the full
result object is returned. -/
def Problem.minimize (p : Problem)
    (optimizer : ObjFun → List ℚ → List ConstraintFun → OptResult)
    (σ : Store) : Option (OptResult × Store) :=
  let opt := optimizer p.obj_fun (p.initial_guess σ) p.constraint_funs
  match Problem.assign_to_variables p.variables' opt.x σ with
  | none => none
  | some σ1 => some (opt, σ1)

/-- The default of the tol parameter in Problem.__init__'s signature
(var.py line 331). -/
def Problem.tolDefault : ℚ := 1e-6

/-- Problem.__init__ (var.py lines 331-340) after variable discovery: tol
is accepted but neither stored on the instance nor used. -/
def Problem.init (obj : Operand) (variables' : List VarId)
    (constraints : List Constraint) (tol : ℚ) : Problem :=
  ⟨obj, constraints, variables'⟩

/-- Operator trees over constant numeric leaves, for the deferred
evaluation property. -/
inductive ArithTree : Type where
  | leaf (r : ℚ) : ArithTree
  | add (a b : ArithTree) : ArithTree
  | sub (a b : ArithTree) : ArithTree
  | mul (a b : ArithTree) : ArithTree
  | div (a b : ArithTree) : ArithTree
  | neg (a : ArithTree) : ArithTree

/-- Build the deferred expression graph of a tree through the overloaded
operators. -/
def ArithTree.build : ArithTree → Operand
  | .leaf r => .num r
  | .add a b => Operation.add a.build b.build
  | .sub a b => Operation.sub a.build b.build
  | .mul a b => Operation.mul a.build b.build
  | .div a b => Operation.truediv a.build b.build
  | .neg a => Operation.neg a.build

/-- Direct arithmetic on the plain numeric operands, with the same failure
rule for division by zero. -/
def ArithTree.direct : ArithTree → Option ℚ
  | .leaf r => some r
  | .add a b =>
      match a.direct, b.direct with
      | some x, some y => some (x + y)
      | _, _ => none
  | .sub a b =>
      match a.direct, b.direct with
      | some x, some y => some (x - y)
      | _, _ => none
  | .mul a b =>
      match a.direct, b.direct with
      | some x, some y => some (x * y)
      | _, _ => none
  | .div a b =>
      match a.direct, b.direct with
      | some x, some y => if y = 0 then none else some (x / y)
      | _, _ => none
  | .neg a => a.direct.map (fun x => -x)

/-- Substitute the number n for every leaf occurrence of the Variable v. -/
def Operand.subst (v : VarId) (n : ℚ) : Operand → Operand
  | .null => .null
  | .num r => .num r
  | .var w => if w = v then .num n else .var w
  | .node l r m s => .node (l.subst v n) (r.subst v n) m s
  | .arr es => .arr (es.attach.map (fun x => Operand.subst v n x.1))
termination_by o => sizeOf o
decreasing_by
  all_goals simp_wf
  all_goals first
    | omega
    | (have hm := List.sizeOf_lt_of_mem x.2; omega)

/-- A one-variable Problem for concrete instantiations. -/
def demoProblem : Problem := ⟨Operand.var 0, [], [0]⟩

/-- An optimizer stub that reports failure yet returns a vector. -/
def demoOptimizer : ObjFun → List ℚ → List ConstraintFun → OptResult :=
  fun _ _ _ => ⟨[5], false⟩

/-- A two-variable Problem for the initial-guess instantiation. -/
def guessProblem : Problem := ⟨Operand.var 0, [], [0, 1]⟩

/-- Assigning a vector leaves every Variable outside the list untouched. -/
theorem assign_not_mem (vars : List VarId) (x : List ℚ) (σ σ' : Store) (w : VarId)
    (h : Problem.assign_to_variables vars x σ = some σ') (hw : w ∉ vars) :
    σ' w = σ w := by
  induction vars generalizing x σ with
  | nil =>
      simp only [Problem.assign_to_variables, Option.some.injEq] at h
      subst h
      rfl
  | cons v vs ih =>
      cases x with
      | nil => simp [Problem.assign_to_variables] at h
      | cons q qs =>
          simp only [Problem.assign_to_variables] at h
          have hw1 : w ∉ vs := fun hmem => hw (List.mem_cons_of_mem _ hmem)
          have hwv : w ≠ v := fun hv => hw (hv ▸ List.mem_cons_self _ _)
          rw [ih qs (Store.update σ v q) h hw1]
          simp [Store.update, hwv]

/-- Positional write-back: after a successful assignment over a
duplicate-free variable list, the i-th variable holds the i-th entry. -/
theorem assign_get (vars : List VarId) (x : List ℚ) (σ σ' : Store)
    (h : Problem.assign_to_variables vars x σ = some σ')
    (hnd : vars.Nodup) (i : ℕ) (hi : i < vars.length) :
    i < x.length ∧ σ' (vars.get ⟨i, hi⟩) = x.get? i := by
  induction vars generalizing x σ i with
  | nil => exact absurd hi (by simp)
  | cons v vs ih =>
      cases x with
      | nil => simp [Problem.assign_to_variables] at h
      | cons q qs =>
          simp only [Problem.assign_to_variables] at h
          rcases List.nodup_cons.mp hnd with ⟨hv, hvs⟩
          cases i with
          | zero =>
              refine ⟨by simp, ?_⟩
              have hσ : σ' v = Store.update σ v q v :=
                assign_not_mem vs qs _ _ v h hv
              simpa [Store.update] using hσ
          | succ j =>
              have hj : j < vs.length := by simpa using hi
              rcases ih qs (Store.update σ v q) h hvs j hj with ⟨h1, h2⟩
              exact ⟨by simpa using h1, by simpa using h2⟩

/-- C1 (code bug in Expression.variables): the loop condition reads the
undefined name l_expr, so every call raises NameError instead of
returning the distinct Variables; with the one-token repair (l_expr read
as list_expr) the traversal of v*v and of v + v*2 does return v exactly
once, as the claim states. -/
theorem variables_always_nameError :
    (∀ e : Operand, Expression.variables e = PyResult.nameError "l_expr") ∧
    Expression.variablesFixed 8 (Operation.mul (Operand.var 0) (Operand.var 0)) =
      some [0] ∧
    Expression.variablesFixed 8
        (Operation.add (Operand.var 0)
          (Operation.mul (Operand.var 0) (Operand.num 2))) =
      some [0] :=
  ⟨fun _ => rfl, by decide, by decide⟩

/-- C2: an Expression built purely from constant numeric leaves evaluates,
lazily through value_of, to exactly the direct application of the
combining functions to the plain numbers; deferred construction does not
change the arithmetic result. -/
theorem value_of_constant_tree (σ : Store) (t : ArithTree) :
    value_of σ t.build = t.direct := by
  induction t with
  | leaf r => rfl
  | add a b iha ihb =>
      simp only [ArithTree.build, ArithTree.direct, Operation.add, value_of, iha, ihb]
      cases a.direct <;> cases b.direct <;> rfl
  | sub a b iha ihb =>
      simp only [ArithTree.build, ArithTree.direct, Operation.sub, value_of, iha, ihb]
      cases a.direct <;> cases b.direct <;> rfl
  | mul a b iha ihb =>
      simp only [ArithTree.build, ArithTree.direct, Operation.mul, value_of, iha, ihb]
      cases a.direct <;> cases b.direct <;> simp [liftBin, mul_comm]
  | div a b iha ihb =>
      simp only [ArithTree.build, ArithTree.direct, Operation.truediv, value_of,
        iha, ihb]
  | neg a iha =>
      simp only [ArithTree.build, ArithTree.direct, Operation.neg, value_of, iha]

/-- C3: writing v.value = n is immediately visible: evaluating any
Expression under the updated store equals evaluating the tree with n
substituted for the leaf v - a node stores no numeric value and its value
is recomputed fresh from the current operand values on every access. -/
theorem value_fresh_after_set (σ : Store) (v : VarId) (n : ℚ) :
    ∀ e : Operand, value_of (Store.update σ v n) e = value_of σ (e.subst v n)
  | .null => by simp [value_of, Operand.subst]
  | .num r => by simp [value_of, Operand.subst]
  | .var w => by
      by_cases hw : w = v
      · subst hw
        simp [value_of, Operand.subst, Store.update]
      · simp [value_of, Operand.subst, Store.update, hw]
  | .node l r m s => by
      have ihl := value_fresh_after_set σ v n l
      have ihr := value_fresh_after_set σ v n r
      simp [value_of, Operand.subst, ihl, ihr]
  | .arr es => by
      simp [value_of, Operand.subst]

/-- C4: the closure built for each recognised constraint: '==' gives a
type 'eq' closure returning (left - right).value, '>=' a type 'ineq'
closure returning (left - right).value, '<=' a type 'ineq' closure
returning (right - left).value, each evaluated after assigning the
candidate vector to the discovered variables. -/
theorem build_constraints_closures (vars : List VarId) (c : Constraint)
    (x : List ℚ) (σ σ' : Store)
    (h : Problem.assign_to_variables vars x σ = some σ') :
    (c.symbol = "==" → ∃ cf, Problem.build_constraints vars [c] = [cf] ∧
      cf.type = "eq" ∧
      cf.fun' x σ = value_of σ' (Operation.sub c.left c.right)) ∧
    (c.symbol = ">=" → ∃ cf, Problem.build_constraints vars [c] = [cf] ∧
      cf.type = "ineq" ∧
      cf.fun' x σ = value_of σ' (Operation.sub c.left c.right)) ∧
    (c.symbol = "<=" → ∃ cf, Problem.build_constraints vars [c] = [cf] ∧
      cf.type = "ineq" ∧
      cf.fun' x σ = value_of σ' (Operation.sub c.right c.left)) := by
  refine ⟨fun hs => ?_, fun hs => ?_, fun hs => ?_⟩
  · have he : c.is_equality = true := by
      simp [Constraint.is_equality, hs]
    refine ⟨⟨"eq", fun x σ =>
        match Problem.assign_to_variables vars x σ with
        | none => none
        | some σ1 => value_of σ1 (Operation.sub c.left c.right)⟩, ?_, rfl, ?_⟩
    · simp [Problem.build_constraints, he]
    · show (match Problem.assign_to_variables vars x σ with
        | none => none
        | some σ1 => value_of σ1 (Operation.sub c.left c.right)) = _
      rw [h]
  · have he : c.is_equality = false := by
      simp only [Constraint.is_equality, hs]
      decide
    have hg : c.is_greater_than = true := by
      simp [Constraint.is_greater_than, hs]
    refine ⟨⟨"ineq", fun x σ =>
        match Problem.assign_to_variables vars x σ with
        | none => none
        | some σ1 => value_of σ1 (Operation.sub c.left c.right)⟩, ?_, rfl, ?_⟩
    · simp [Problem.build_constraints, he, hg]
    · show (match Problem.assign_to_variables vars x σ with
        | none => none
        | some σ1 => value_of σ1 (Operation.sub c.left c.right)) = _
      rw [h]
  · have he : c.is_equality = false := by
      simp only [Constraint.is_equality, hs]
      decide
    have hg : c.is_greater_than = false := by
      simp only [Constraint.is_greater_than, hs]
      decide
    have hl : c.is_less_than = true := by
      simp [Constraint.is_less_than, hs]
    refine ⟨⟨"ineq", fun x σ =>
        match Problem.assign_to_variables vars x σ with
        | none => none
        | some σ1 => value_of σ1 (Operation.sub c.right c.left)⟩, ?_, rfl, ?_⟩
    · simp [Problem.build_constraints, he, hg, hl]
    · show (match Problem.assign_to_variables vars x σ with
        | none => none
        | some σ1 => value_of σ1 (Operation.sub c.right c.left)) = _
      rw [h]

/-- Witness for C4 at the equality constraint var0 == 1 with x = [2]. -/
theorem build_constraints_closures_witness :
    ∃ cf, Problem.build_constraints [0]
        [Operation.eq (Operand.var 0) (Operand.num 1)] = [cf] ∧
      cf.type = "eq" ∧
      cf.fun' [2] Store.empty =
        value_of (Store.update Store.empty 0 2)
          (Operation.sub (Operation.eq (Operand.var 0) (Operand.num 1)).left
            (Operation.eq (Operand.var 0) (Operand.num 1)).right) :=
  (build_constraints_closures [0] (Operation.eq (Operand.var 0) (Operand.num 1))
    [2] Store.empty (Store.update Store.empty 0 2) rfl).1 rfl

/-- C5: a Constraint whose symbol is none of '==', '>=', '<=' matches no
branch of _build_constraints: no closure is produced for it, no error is
raised (the builder is a total function into a closure list), and the
remaining constraints are still translated. -/
theorem build_constraints_drops_unknown (vars : List VarId) (c : Constraint)
    (cs : List Constraint) (h1 : c.symbol ≠ "==") (h2 : c.symbol ≠ ">=")
    (h3 : c.symbol ≠ "<=") :
    Problem.build_constraints vars (c :: cs) = Problem.build_constraints vars cs := by
  have e1 : c.is_equality = false := by
    simpa [Constraint.is_equality] using h1
  have e2 : c.is_greater_than = false := by
    simpa [Constraint.is_greater_than] using h2
  have e3 : c.is_less_than = false := by
    simpa [Constraint.is_less_than] using h3
  simp [Problem.build_constraints, e1, e2, e3]

/-- Witness for C5 at a constraint with the unrecognised symbol '!='. -/
theorem build_constraints_drops_unknown_witness :
    Problem.build_constraints [0]
        [⟨Operand.var 0, Operand.num 1, fun x y => x ≠ y, "!="⟩] =
      Problem.build_constraints [0] [] :=
  build_constraints_drops_unknown [0]
    ⟨Operand.var 0, Operand.num 1, fun x y => x ≠ y, "!="⟩ []
    (by decide) (by decide) (by decide)

/-- C6: minimize always writes the returned vector back onto the discovered
variables positionally - there is no branch on the success flag - and the
optimizer's full result object is what minimize returns. -/
theorem minimize_writes_back (p : Problem)
    (optimizer : ObjFun → List ℚ → List ConstraintFun → OptResult)
    (σ σ' : Store) (res : OptResult)
    (h : p.minimize optimizer σ = some (res, σ'))
    (hnd : p.variables'.Nodup) (i : ℕ) (hi : i < p.variables'.length) :
    res = optimizer p.obj_fun (p.initial_guess σ) p.constraint_funs ∧
    i < res.x.length ∧
    σ' (p.variables'.get ⟨i, hi⟩) = res.x.get? i := by
  simp only [Problem.minimize] at h
  cases hA : Problem.assign_to_variables p.variables'
      (optimizer p.obj_fun (p.initial_guess σ) p.constraint_funs).x σ with
  | none =>
      rw [hA] at h
      exact absurd h (by simp)
  | some σ1 =>
      rw [hA] at h
      simp only [Option.some.injEq, Prod.mk.injEq] at h
      obtain ⟨hres, hσ⟩ := h
      subst hres
      subst hσ
      rcases assign_get p.variables'
          ((optimizer p.obj_fun (p.initial_guess σ) p.constraint_funs).x) σ _ hA
          hnd i hi with ⟨h1, h2⟩
      exact ⟨rfl, h1, h2⟩

/-- Witness for C6 at an optimizer stub reporting failure (success false):
the vector is still written back and the stub's full result returned. -/
theorem minimize_writes_back_witness :
    (⟨[5], false⟩ : OptResult) =
      demoOptimizer demoProblem.obj_fun (demoProblem.initial_guess Store.empty)
        demoProblem.constraint_funs ∧
    0 < (⟨[5], false⟩ : OptResult).x.length ∧
    Store.update Store.empty 0 5 (demoProblem.variables'.get ⟨0, by decide⟩) =
      (⟨[5], false⟩ : OptResult).x.get? 0 :=
  minimize_writes_back demoProblem demoOptimizer Store.empty
    (Store.update Store.empty 0 5) ⟨[5], false⟩ rfl (by decide) 0 (by decide)

/-- C7 counterexample: a Problem built with tolerance 42 makes an optimizer
invocation whose tol argument is None, and its stored state is identical
to a Problem built with the default tolerance - the tolerance is not
passed through to the optimizer. -/
theorem tol_not_passed_counterexample :
    ((Problem.init (Operand.var 0) [0] [] 42).minimizeCall Store.empty).tol =
      none ∧
    Problem.init (Operand.var 0) [0] [] 42 =
      Problem.init (Operand.var 0) [0] [] Problem.tolDefault :=
  ⟨rfl, rfl⟩

/-- C7 amended: Problem.__init__ carries a tolerance parameter whose default
is 1e-6, but the tolerance is discarded: it is neither stored on the
Problem nor passed to the external optimizer - minimize invokes the
optimizer with no tol argument. -/
theorem tol_default_unused (obj : Operand) (vars : List VarId)
    (cs : List Constraint) (tol : ℚ) (σ : Store) :
    Problem.tolDefault = 1e-6 ∧
    Problem.init obj vars cs tol = Problem.init obj vars cs Problem.tolDefault ∧
    ((Problem.init obj vars cs tol).minimizeCall σ).tol = none :=
  ⟨rfl, rfl, rfl⟩

/-- C8: every comparison on an Operation-capable left operand returns a
Constraint node (the codomain of these operators is Constraint, never a
boolean), with left, right and the relation symbol recorded; the strict
operators coincide with the non-strict ones as whole nodes - same symbol
and same combining function. -/
theorem comparisons_constraints_alias (a b : Operand) :
    Operation.lt a b = Operation.le a b ∧
    Operation.gt a b = Operation.ge a b ∧
    (Operation.eq a b).symbol = "==" ∧
    (Operation.eq a b).left = a ∧ (Operation.eq a b).right = b ∧
    (Operation.le a b).symbol = "<=" ∧
    (Operation.ge a b).symbol = ">=" :=
  ⟨rfl, rfl, rfl, rfl, rfl, rfl, rfl⟩

/-- C9: the initial-guess vector is aligned with the discovered variable
order: same length, and entry i is the current value of variable i when
set, else the default 1.0. -/
theorem initial_guess_spec (p : Problem) (σ : Store) (i : ℕ)
    (hi : i < p.variables'.length) :
    (p.initial_guess σ).length = p.variables'.length ∧
    (p.initial_guess σ).get? i =
      some ((σ (p.variables'.get ⟨i, hi⟩)).getD 1) := by
  constructor
  · simp [Problem.initial_guess]
  · have hg : p.variables'.get? i = some (p.variables'.get ⟨i, hi⟩) :=
      List.get?_eq_get hi
    rw [Problem.initial_guess, List.get?_map, hg]
    cases hvi : σ (p.variables'.get ⟨i, hi⟩) with
    | none =>
        have hvi2 : σ p.variables'[i] = none := by
          simpa [List.get_eq_getElem] using hvi
        simp [hvi2]
    | some q =>
        have hvi2 : σ p.variables'[i] = some q := by
          simpa [List.get_eq_getElem] using hvi
        simp [hvi2]

/-- Witness for C9 on a two-variable Problem with variable 0 set to 5 and
variable 1 unset, read at index 1 (the default-1.0 case). -/
theorem initial_guess_spec_witness :
    (guessProblem.initial_guess (Store.update Store.empty 0 5)).length =
      guessProblem.variables'.length ∧
    (guessProblem.initial_guess (Store.update Store.empty 0 5)).get? 1 =
      some (((Store.update Store.empty 0 5)
        (guessProblem.variables'.get ⟨1, by decide⟩)).getD 1) :=
  initial_guess_spec guessProblem (Store.update Store.empty 0 5) 1 (by decide)

/-- C10: unary plus returns the very operand object: it creates no new
Expression node, so it is the identity on the graph. -/
theorem pos_identity (e : Operand) : Operation.pos e = e := rfl

end FunctionalWrapper
